import Mathlib

/-!
Verification of the `language-server` bridge (src/language-server/server.py)
against its specification.

The embedding models:
  * `LanguageConfig`, `Diagnostic`, `ValidationResult` (the pydantic models);
  * `LANGUAGE_CONFIGS` (the static extension table);
  * `LanguageServer.validate_path` as `validatePath` over an abstract
    filesystem `FS` (`FS.resolve` models `Path(s).resolve()`, an absolute,
    symlink-resolved component list; `FS.pathExists` models `Path.exists()`);
  * `LanguageServer.validate_file` as `validateFile` (the try/except body);
  * the severity formatting of `handle_call_tool`, including Python's list
    indexing semantics (negative indices wrap, out-of-range raises);
  * `handle_call_tool` itself, parameterized over the validate callback.

Paths are modelled as lists of components of the resolved absolute path
(the root `/` is the empty list).
-/

/-- Configuration for a language server (pydantic model `LanguageConfig`). -/
structure LanguageConfig where
  command : List String
  extensions : List String
  language_id : String
deriving DecidableEq

/-- LSP diagnostic information (pydantic model `Diagnostic`).
`severity` is an unconstrained integer in the source model; `line` and
`column` carry a `ge=0` bound, hence `Nat`. -/
structure Diagnostic where
  message : String
  severity : Int
  line : Nat
  column : Nat
  source : Option String := none
deriving DecidableEq

/-- Result of file validation (pydantic model `ValidationResult`). -/
structure ValidationResult where
  file_path : String
  diagnostics : List Diagnostic := []
  error : Option String := none
deriving DecidableEq

/-- The static extension table `LANGUAGE_CONFIGS`, in source order. -/
def LANGUAGE_CONFIGS : List (String × LanguageConfig) :=
  [ (".ts",  { command := ["typescript-language-server", "--stdio"],
               extensions := [".ts", ".tsx"], language_id := "typescript" }),
    (".tsx", { command := ["typescript-language-server", "--stdio"],
               extensions := [".ts", ".tsx"], language_id := "typescriptreact" }),
    (".js",  { command := ["typescript-language-server", "--stdio"],
               extensions := [".js", ".jsx"], language_id := "javascript" }),
    (".jsx", { command := ["typescript-language-server", "--stdio"],
               extensions := [".js", ".jsx"], language_id := "javascriptreact" }),
    (".py",  { command := ["pylsp"],
               extensions := [".py"], language_id := "python" }),
    (".zig", { command := ["zls"],
               extensions := [".zig"], language_id := "zig" }) ]

/-- Dictionary lookup `LANGUAGE_CONFIGS[ext]`, guarded in the source by
`ext not in LANGUAGE_CONFIGS`, hence an `Option` here. -/
def lookupConfig (ext : String) : Option LanguageConfig :=
  (LANGUAGE_CONFIGS.find? (fun kv => kv.1 == ext)).map (fun kv => kv.2)

/-- Abstract filesystem: `resolve` models `Path(s).resolve()` (absolute,
symlink-resolved, as a component list), `pathExists` models `Path.exists()`. -/
structure FS where
  resolve : String → List String
  pathExists : List String → Bool

/-- Python's `Path.parents` on a resolved absolute path: all proper
ancestors, nearest first, down to the root (the empty component list). -/
def parents (p : List String) : List (List String) :=
  ((List.range p.length).map (fun i => List.take i p)).reverse

/-- The two failure modes of `validate_path`, each raised as a `ValueError`
in the source; `message` below renders the exception text. -/
inductive ValidateError where
  | notAllowed (p : List String)
  | notFound (p : List String)
deriving DecidableEq

/-- `str(PosixPath(p))` for a resolved absolute component list. -/
def pathToString (p : List String) : String :=
  "/" ++ String.intercalate "/" p

/-- `str(e)` for the `ValueError`s raised by `validate_path`. -/
def ValidateError.message : ValidateError → String
  | .notAllowed p => "Path not in allowed directories: " ++ pathToString p
  | .notFound p => "File does not exist: " ++ pathToString p

/-- The allow-list test of `validate_path`:
`any(any(parent == allowed_dir for parent in path.parents) for allowed_dir in self.allowed_dirs)`. -/
def allowedCheck (allowed : List (List String)) (path : List String) : Bool :=
  allowed.any (fun d => (parents path).any (fun par => par == d))

/-- `LanguageServer.validate_path`: resolve, reject paths not strictly
inside an allowed directory, then reject non-existent paths. -/
def validatePath (fs : FS) (allowed : List (List String)) (fp : String) :
    Except ValidateError (List String) :=
  let path := fs.resolve fp
  if !(allowedCheck allowed path) then
    Except.error (ValidateError.notAllowed path)
  else if !(fs.pathExists path) then
    Except.error (ValidateError.notFound path)
  else
    Except.ok path

/-- `name.rfind(".")` restricted to a found index (Python returns -1 when
absent, modelled as `none`). -/
def lastDotIdx (cs : List Char) : Option Nat :=
  match (cs.reverse.findIdx? (fun c => c == '.')) with
  | none => none
  | some j => some (cs.length - 1 - j)

/-- `PurePath.suffix` of a single path component: the part from the last
dot, unless the dot is the first character or the last one. -/
def pySuffix (name : String) : String :=
  let cs := name.toList
  match lastDotIdx cs with
  | none => ""
  | some i => if 0 < i ∧ i + 1 < cs.length then String.mk (cs.drop i) else ""

/-- `Path.suffix` of a resolved path: the suffix of its last component
(the root has name `""`). -/
def pathSuffix (p : List String) : String :=
  pySuffix ((p.getLast?).getD "")

/-- Python `str.lower()` (ASCII fragment, sufficient for extensions). -/
def strLower (s : String) : String :=
  String.mk (s.toList.map Char.toLower)

/-- The backend selection performed by `validate_file`:
`ext = path.suffix.lower(); LANGUAGE_CONFIGS[ext]`. -/
def chosenConfig (p : List String) : Option LanguageConfig :=
  lookupConfig (strLower (pathSuffix p))

/-- `LanguageServer.validate_file`: the try body authorizes the path,
lower-cases the suffix, looks up the backend, and (the LSP part being a
stub) returns an empty result; the except clause turns any raised
exception into a populated `error` field. -/
def validateFile (fs : FS) (allowed : List (List String)) (fp : String) :
    ValidationResult :=
  match validatePath fs allowed fp with
  | Except.error e =>
      { file_path := fp, diagnostics := [], error := some e.message }
  | Except.ok path =>
      match chosenConfig path with
      | none =>
          { file_path := fp, diagnostics := [],
            error := some ("Unsupported file type: " ++ strLower (pathSuffix path)) }
      | some _ =>
          { file_path := fp, diagnostics := [], error := none }

/-- Python list indexing `xs[i]` for `int` i: non-negative indices in
range, negative indices wrap from the end, everything else raises
`IndexError` (modelled as `none`). -/
def pyIndex (xs : List String) (i : Int) : Option String :=
  if 0 ≤ i ∧ i < (xs.length : Int) then xs.get? i.toNat
  else if 0 ≤ i + (xs.length : Int) ∧ i < 0 then xs.get? (i + (xs.length : Int)).toNat
  else none

/-- The label list of `handle_call_tool`. -/
def severityLabels : List String := ["Error", "Warning", "Info", "Hint"]

/-- `["Error", "Warning", "Info", "Hint"][diag.severity - 1]` with Python
indexing semantics. -/
def severityLabel (severity : Int) : Option String :=
  pyIndex severityLabels (severity - 1)

/-- One diagnostic line of the result text; `none` when the severity
lookup raises `IndexError`. -/
def formatDiag (d : Diagnostic) : Option String :=
  (severityLabel d.severity).map (fun sev =>
    "• " ++ sev ++ " at line " ++ toString d.line ++ ", column " ++
      toString d.column ++ ": " ++ d.message ++ "\n" ++
      (match d.source with
       | some s => "  Source: " ++ s ++ "\n"
       | none => ""))

/-- The result-to-text formatting of `handle_call_tool`. -/
def formatResult (r : ValidationResult) : Option String :=
  let header := "Validation results for " ++ r.file_path ++ ":\n"
  match r.error with
  | some e => some (header ++ "Error: " ++ e ++ "\n")
  | none =>
      if r.diagnostics.isEmpty then some (header ++ "No issues found\n")
      else (r.diagnostics.mapM formatDiag).map
        (fun parts => header ++ "\nDiagnostics:\n" ++ String.join parts)

/-- `request.params` for a tool call: tool name and optional arguments
(the JSON object modelled as an association list; only the string value
under "file_path" is ever read). -/
structure CallToolParams where
  name : String
  arguments : Option (List (String × String))

/-- `"file_path" in arguments`. -/
def hasKey (args : List (String × String)) (k : String) : Bool :=
  args.any (fun kv => kv.1 == k)

/-- `arguments["file_path"]` on the success path (the key is present). -/
def getArg (args : List (String × String)) (k : String) : String :=
  (((args.find? (fun kv => kv.1 == k))).map (fun kv => kv.2)).getD ""

/-- `handle_call_tool`, parameterized over the validate callback so that
non-invocation of the backend pipeline is expressible: errors model the
`ValueError`s (and the possible `IndexError`) the handler raises. -/
def handleCallTool (validate : String → ValidationResult)
    (p : CallToolParams) : Except String String :=
  if p.name != "validate" then
    Except.error ("Unknown tool: " ++ p.name)
  else
    match p.arguments with
    | none => Except.error "Missing required argument: file_path"
    | some args =>
        if args.isEmpty || !(hasKey args "file_path") then
          Except.error "Missing required argument: file_path"
        else
          match formatResult (validate (getArg args "file_path")) with
          | some text => Except.ok text
          | none => Except.error "IndexError: list index out of range"

/-- The spec's notion of strict containment: `d` is a proper ancestor
directory of `p` (equality excluded). -/
def strictlyUnder (p d : List String) : Prop :=
  List.take d.length p = d ∧ d ≠ p

instance (p d : List String) : Decidable (strictlyUnder p d) :=
  inferInstanceAs (Decidable (List.take d.length p = d ∧ d ≠ p))

/-- A concrete filesystem for witnesses: allowed directory `/repo`;
`/repo/src/a.py` and `/repo/notes.txt` exist, `/ghost` and
`/repo/missing.py` do not; `a.py` resolves (via a cwd of `/repo/src`)
to `/repo/src/a.py`. -/
def testFS : FS where
  resolve := fun s =>
    if s = "/repo/src/a.py" then ["repo", "src", "a.py"]
    else if s = "a.py" then ["repo", "src", "a.py"]
    else if s = "/repo" then ["repo"]
    else if s = "/repo/notes.txt" then ["repo", "notes.txt"]
    else if s = "/repo/missing.py" then ["repo", "missing.py"]
    else if s = "/ghost" then ["ghost"]
    else []
  pathExists := fun p =>
    p == ["repo", "src", "a.py"] || p == ["repo", "notes.txt"] ||
      p == ["repo", "src"] || p == ["repo"]

/-! ### Helper lemmas -/

/-- Membership in `parents` is exactly strict containment. -/
theorem mem_parents_iff (p d : List String) : d ∈ parents p ↔ strictlyUnder p d := by
  unfold parents strictlyUnder
  simp only [List.mem_reverse, List.mem_map, List.mem_range]
  constructor
  · rintro ⟨i, hi, rfl⟩
    have hlen : (List.take i p).length = i := by
      rw [List.length_take]; omega
    refine ⟨by rw [hlen], fun h => ?_⟩
    have := congrArg List.length h
    rw [hlen] at this
    omega
  · rintro ⟨htake, hne⟩
    refine ⟨d.length, ?_, htake⟩
    by_contra hlen
    push_neg at hlen
    have hp : List.take d.length p = p := List.take_of_length_le hlen
    exact hne (htake ▸ hp.symm ▸ rfl)

/-- The nested `any` of `validate_path` tests strict containment under some
allowed directory. -/
theorem allowedCheck_iff (allowed : List (List String)) (path : List String) :
    allowedCheck allowed path = true ↔ ∃ d ∈ allowed, strictlyUnder path d := by
  simp only [allowedCheck, List.any_eq_true, beq_iff_eq, exists_eq_right]
  exact exists_congr fun d => and_congr_right fun _ => mem_parents_iff path d

/-- A string with a non-empty left part stays non-empty under append. -/
theorem append_lit_ne_empty (s t : String) (hs : 0 < s.length) : s ++ t ≠ "" := by
  intro h
  have hl := congrArg String.length h
  rw [String.length_append] at hl
  have h0 : ("" : String).length = 0 := rfl
  rw [h0] at hl
  omega

/-- Both `ValueError` messages of `validate_path` are non-empty. -/
theorem message_ne_empty (e : ValidateError) : e.message ≠ "" := by
  cases e with
  | notAllowed p => exact append_lit_ne_empty _ _ (by decide)
  | notFound p => exact append_lit_ne_empty _ _ (by decide)

/-! ### Claims -/

/-- Claim C1. The severity formatting of `handle_call_tool` maps 1, 2, 3, 4
to "Error", "Warning", "Info", "Hint"; but for severity 0 Python's negative
indexing wraps and the handler silently labels the diagnostic "Hint"
(and for severity 5 and beyond it raises an uncaught `IndexError`), instead
of reporting an input-validation error as the specification requires. -/
theorem severity_label_wraps_for_severity_zero :
    severityLabel 1 = some "Error" ∧ severityLabel 2 = some "Warning" ∧
    severityLabel 3 = some "Info" ∧ severityLabel 4 = some "Hint" ∧
    severityLabel 0 = some "Hint" ∧ severityLabel 5 = none ∧
    severityLabel (-1) = some "Info" := by decide

/-- Claim C2. `validate_file` always returns a `ValidationResult` (the
embedding is a total function), and every failure mode — a sandbox error
raised by `validate_path` or an unsupported extension — is captured into a
non-empty `error` field carrying the exception's message. -/
theorem validate_file_never_raises (fs : FS) (allowed : List (List String))
    (fp : String) :
    (validateFile fs allowed fp).error = none ∨
    ∃ m, (validateFile fs allowed fp).error = some m ∧ m ≠ "" ∧
      ((∃ e, validatePath fs allowed fp = Except.error e ∧ m = ValidateError.message e) ∨
       (∃ p, validatePath fs allowed fp = Except.ok p ∧ chosenConfig p = none ∧
          m = "Unsupported file type: " ++ strLower (pathSuffix p))) := by
  cases hvp : validatePath fs allowed fp with
  | error e =>
      right
      refine ⟨ValidateError.message e, ?_, message_ne_empty e, Or.inl ⟨e, rfl, rfl⟩⟩
      simp [validateFile, hvp]
  | ok p =>
      cases hcc : chosenConfig p with
      | none =>
          right
          refine ⟨"Unsupported file type: " ++ strLower (pathSuffix p), ?_,
            append_lit_ne_empty _ _ (by decide), Or.inr ⟨p, rfl, hcc, rfl⟩⟩
          simp [validateFile, hvp, hcc]
      | some cfg =>
          left
          simp [validateFile, hvp, hcc]

/-- Witness for C2 at the allowed dir `/repo` and input `/ghost`. -/
theorem validate_file_never_raises_witness :
    (validateFile testFS [["repo"]] "/ghost").error = none ∨
    ∃ m, (validateFile testFS [["repo"]] "/ghost").error = some m ∧ m ≠ "" ∧
      ((∃ e, validatePath testFS [["repo"]] "/ghost" = Except.error e ∧
          m = ValidateError.message e) ∨
       (∃ p, validatePath testFS [["repo"]] "/ghost" = Except.ok p ∧
          chosenConfig p = none ∧
          m = "Unsupported file type: " ++ strLower (pathSuffix p))) :=
  validate_file_never_raises testFS [["repo"]] "/ghost"

/-- Claim C3. Whenever the resolved path is not strictly under any allowed
directory — in particular when it equals an allowed directory — `validate_path`
raises the not-allowed `ValueError`. -/
theorem validate_path_rejects_outside (fs : FS) (allowed : List (List String))
    (fp : String) (h : ∀ d ∈ allowed, ¬ strictlyUnder (fs.resolve fp) d) :
    validatePath fs allowed fp =
      Except.error (ValidateError.notAllowed (fs.resolve fp)) := by
  have hc : allowedCheck allowed (fs.resolve fp) = false := by
    rw [Bool.eq_false_iff]
    intro ht
    obtain ⟨d, hd, hsu⟩ := (allowedCheck_iff _ _).mp ht
    exact h d hd hsu
  simp [validatePath, hc]

/-- Witness for C3: `/repo` resolves to the allowed directory itself, exists
on disk, and is still rejected (equality is not containment). -/
theorem validate_path_rejects_outside_witness :
    validatePath testFS [["repo"]] "/repo" =
      Except.error (ValidateError.notAllowed (testFS.resolve "/repo")) :=
  validate_path_rejects_outside testFS [["repo"]] "/repo" (by decide)

/-- Claim C4. A path resolving strictly under some allowed directory and
existing on disk is authorized, and `validate_path` returns the resolved
form. -/
theorem validate_path_accepts_strict_descendant (fs : FS)
    (allowed : List (List String)) (fp : String)
    (h1 : ∃ d ∈ allowed, strictlyUnder (fs.resolve fp) d)
    (h2 : fs.pathExists (fs.resolve fp) = true) :
    validatePath fs allowed fp = Except.ok (fs.resolve fp) := by
  have hc : allowedCheck allowed (fs.resolve fp) = true := (allowedCheck_iff _ _).mpr h1
  simp [validatePath, hc, h2]

/-- Witness for C4 at `/repo/src/a.py` under allowed dir `/repo`. -/
theorem validate_path_accepts_strict_descendant_witness :
    validatePath testFS [["repo"]] "/repo/src/a.py" =
      Except.ok (testFS.resolve "/repo/src/a.py") :=
  validate_path_accepts_strict_descendant testFS [["repo"]] "/repo/src/a.py"
    ⟨["repo"], by decide, by decide⟩ (by decide)

/-- Counterexample for C5 as stated. `/ghost` resolves to a non-existent
path, yet `validate_path` fails with the not-allowed error, not the
not-found one: the allow-list check runs first. -/
theorem validate_path_order_counterexample :
    testFS.pathExists (testFS.resolve "/ghost") = false ∧
    validatePath testFS [["repo"]] "/ghost" =
      Except.error (ValidateError.notAllowed ["ghost"]) ∧
    ValidateError.notAllowed ["ghost"] ≠
      ValidateError.notFound (testFS.resolve "/ghost") :=
  ⟨rfl, rfl, by decide⟩

/-- Claim C5 (amended). For every path that passes the allowed-directory
check (resolves strictly under some allowed directory) but does not exist
on disk, `validate_path` fails with the not-found `ValueError`. -/
theorem validate_path_not_found_inside_allowed (fs : FS)
    (allowed : List (List String)) (fp : String)
    (h1 : ∃ d ∈ allowed, strictlyUnder (fs.resolve fp) d)
    (h2 : fs.pathExists (fs.resolve fp) = false) :
    validatePath fs allowed fp =
      Except.error (ValidateError.notFound (fs.resolve fp)) := by
  have hc : allowedCheck allowed (fs.resolve fp) = true := (allowedCheck_iff _ _).mpr h1
  simp [validatePath, hc, h2]

/-- Witness for the amended C5 at the non-existent `/repo/missing.py`. -/
theorem validate_path_not_found_inside_allowed_witness :
    validatePath testFS [["repo"]] "/repo/missing.py" =
      Except.error (ValidateError.notFound (testFS.resolve "/repo/missing.py")) :=
  validate_path_not_found_inside_allowed testFS [["repo"]] "/repo/missing.py"
    ⟨["repo"], by decide, by decide⟩ (by decide)

/-- Claim C6. An authorized, existing file whose lower-cased suffix is not
in `LANGUAGE_CONFIGS` yields a result with empty diagnostics and a
non-empty error string. -/
theorem unsupported_extension_error (fs : FS) (allowed : List (List String))
    (fp : String) (p : List String)
    (h1 : validatePath fs allowed fp = Except.ok p)
    (h2 : chosenConfig p = none) :
    ∃ m, validateFile fs allowed fp =
        { file_path := fp, diagnostics := [], error := some m } ∧ m ≠ "" := by
  refine ⟨"Unsupported file type: " ++ strLower (pathSuffix p), ?_,
    append_lit_ne_empty _ _ (by decide)⟩
  simp [validateFile, h1, h2]

/-- Witness for C6 at `/repo/notes.txt` (extension `.txt` unregistered). -/
theorem unsupported_extension_error_witness :
    ∃ m, validateFile testFS [["repo"]] "/repo/notes.txt" =
        { file_path := "/repo/notes.txt", diagnostics := [], error := some m } ∧
      m ≠ "" :=
  unsupported_extension_error testFS [["repo"]] "/repo/notes.txt"
    ["repo", "notes.txt"] rfl rfl

/-- Claim C7. The backend selection of `validate_file` depends only on the
case-normalized suffix: two paths whose suffixes agree up to letter case
select the same `LanguageConfig`. -/
theorem extension_lookup_case_insensitive (p q : List String)
    (h : strLower (pathSuffix p) = strLower (pathSuffix q)) :
    chosenConfig p = chosenConfig q := by
  unfold chosenConfig
  rw [h]

/-- Witness for C7: `a.PY` selects the same backend as `a.py`, namely the
registered Python configuration. -/
theorem extension_lookup_case_insensitive_witness :
    chosenConfig ["a.PY"] = chosenConfig ["a.py"] ∧
    chosenConfig ["a.py"] =
      some { command := ["pylsp"], extensions := [".py"], language_id := "python" } :=
  ⟨extension_lookup_case_insensitive ["a.PY"] ["a.py"] (by decide), by decide⟩

/-- Claim C8. For an authorized, existing file whose extension is
registered, `validate_file` (whose LSP interaction is a stub publishing no
diagnostics) returns the input path, an empty diagnostics list, and no
error. -/
theorem clean_file_empty_result (fs : FS) (allowed : List (List String))
    (fp : String) (p : List String) (cfg : LanguageConfig)
    (h1 : validatePath fs allowed fp = Except.ok p)
    (h2 : chosenConfig p = some cfg) :
    validateFile fs allowed fp =
      { file_path := fp, diagnostics := [], error := none } := by
  simp [validateFile, h1, h2]

/-- Witness for C8: the end-to-end example `/repo/src/a.py` under allowed
dir `/repo`, extension `.py`, command `pylsp`. -/
theorem clean_file_empty_result_witness :
    validateFile testFS [["repo"]] "/repo/src/a.py" =
      { file_path := "/repo/src/a.py", diagnostics := [], error := none } :=
  clean_file_empty_result testFS [["repo"]] "/repo/src/a.py"
    ["repo", "src", "a.py"]
    { command := ["pylsp"], extensions := [".py"], language_id := "python" }
    rfl rfl

/-- Claim C9. A `validate` tool call with absent arguments, an empty
argument object, or no `file_path` key is rejected with the missing-argument
`ValueError` uniformly in the validate callback — so `validate_file`, and
with it the sandbox, registry and backends, is never invoked. -/
theorem missing_file_path_rejected_before_validate
    (v : String → ValidationResult) (p : CallToolParams)
    (hname : p.name = "validate")
    (hargs : p.arguments = none ∨
      ∃ args, p.arguments = some args ∧
        (args.isEmpty || !(hasKey args "file_path")) = true) :
    handleCallTool v p = Except.error "Missing required argument: file_path" := by
  rcases hargs with h | ⟨args, ha, hcond⟩
  · simp [handleCallTool, hname, h]
  · simp only [handleCallTool, hname, ha, hcond]
    simp

/-- Witness for C9: a `validate` call with no arguments at all. -/
theorem missing_file_path_rejected_before_validate_witness :
    handleCallTool (fun s => { file_path := s })
        { name := "validate", arguments := none } =
      Except.error "Missing required argument: file_path" :=
  missing_file_path_rejected_before_validate (fun s => { file_path := s })
    { name := "validate", arguments := none } rfl (Or.inl rfl)

/-- Claim C10. On every outcome, the `file_path` field of the result of
`validate_file` is the caller's input string verbatim, never the resolved
path. -/
theorem result_file_path_verbatim (fs : FS) (allowed : List (List String))
    (fp : String) : (validateFile fs allowed fp).file_path = fp := by
  cases hvp : validatePath fs allowed fp with
  | error e => simp [validateFile, hvp]
  | ok p =>
      cases hcc : chosenConfig p with
      | none => simp [validateFile, hvp, hcc]
      | some cfg => simp [validateFile, hvp, hcc]

/-- Witness for C10: the relative input `a.py` resolves to
`/repo/src/a.py`, yet the result echoes `a.py`. -/
theorem result_file_path_verbatim_witness :
    (validateFile testFS [["repo"]] "a.py").file_path = "a.py" :=
  result_file_path_verbatim testFS [["repo"]] "a.py"
